import Mathlib

set_option maxRecDepth 100000

/-!
Shallow embedding of the multi-chain wallet balance aggregator
(`lambda/balances/handler.py`) and verification of the frozen claims.

Modelling conventions:
* JSON values are modelled by the inductive `Json`; JSON numbers are modelled
  as integers (all numeric fields this handler touches are integer counts).
* The network (HTTP) layer is modelled by an oracle `String → Option Json`
  mapping an endpoint URL to its parsed response; `none` covers every
  exception that `fetch_json` can raise (connection error, timeout, non-2xx
  status, non-JSON body).
* Python floats do not exist here: the pipeline `count / 10^k` followed by
  `f"{x:.4f}"` is modelled exactly over `ℚ` by `fmt4` (round half to even).
* The AWS secret store is modelled in two layers. `StoreReply` distinguishes
  a successful `SecretString`, an AWS service error response
  (`botocore.exceptions.ClientError`, caught at line 58) and a
  transport-level failure of an unreachable store (`EndpointConnectionError`
  and the other `BotoCoreError`s, caught by no handler in `get_secret`);
  `get_secret_full` is the resulting model, returning `Except` with
  `.error` = an uncaught exception propagating to the caller. The simpler
  `store : String → Except Unit String` used by `get_secret` covers exactly
  the fragment without transport failures
  (theorem `get_secret_full_no_transport`). `json.loads` is the abstract
  parser `jparse : String → Except Unit Json` (`.error` = `JSONDecodeError`,
  caught at line 61). In line with the source annotation
  `_secrets_cache: dict[str, str]`, secret values consumed as RPC URLs are
  taken to be strings.
* Concurrency (`ThreadPoolExecutor` + `as_completed`) is modelled by running
  the per-network fetches over an arbitrary permutation of the registry.
-/

/-- JSON value, with numbers restricted to integers (the only numeric fields
the handler reads are integer lamport/microAlgo counts). -/
inductive Json where
  | null : Json
  | bool : Bool → Json
  | num : Int → Json
  | str : String → Json
  | arr : List Json → Json
  | obj : List (String × Json) → Json

/-- First-match association-list lookup (Python `dict` access / `.get`). -/
def assocLookup {β : Type} : List (String × β) → String → Option β
  | [], _ => none
  | (k2, v) :: rest, k => if k2 = k then some v else assocLookup rest k

/-- `data[k]` / `data.get(k)` on a JSON value: field of an object, `none`
otherwise (non-dict accesses raise in Python and are caught by the fetchers,
collapsing to the same "no value" outcome). -/
def Json.getField : Json → String → Option Json
  | Json.obj kvs, k => assocLookup kvs k
  | _, _ => none

/-- Python truthiness of a JSON value (`if value:`). -/
def Json.truthy : Json → Bool
  | Json.null => false
  | Json.bool b => b
  | Json.num n => n ≠ 0
  | Json.str s => s ≠ ""
  | Json.arr l => !l.isEmpty
  | Json.obj kvs => !kvs.isEmpty

/-- Value of a hexadecimal digit character. -/
def hexDigitVal (c : Char) : Option Nat :=
  if '0' ≤ c ∧ c ≤ '9' then some (c.toNat - 48)
  else if 'a' ≤ c ∧ c ≤ 'f' then some (c.toNat - 87)
  else if 'A' ≤ c ∧ c ≤ 'F' then some (c.toNat - 55)
  else none

/-- Horner accumulation over hex digits. -/
def hexAccum : List Char → Nat → Option Nat
  | [], acc => some acc
  | c :: cs, acc =>
    match hexDigitVal c with
    | some d => hexAccum cs (16 * acc + d)
    | none => none

/-- Python `int(s, 16)` on a canonical hex string: optional `0x`/`0X` prefix
followed by at least one hex digit. -/
def parseHexNat (s : String) : Option Nat :=
  let cs :=
    match s.toList with
    | '0' :: 'x' :: rest => rest
    | '0' :: 'X' :: rest => rest
    | other => other
  match cs with
  | [] => none
  | _ => hexAccum cs 0

/-- Value of a decimal digit character. -/
def decDigitVal (c : Char) : Option Nat :=
  if '0' ≤ c ∧ c ≤ '9' then some (c.toNat - 48) else none

/-- Horner accumulation over decimal digits. -/
def decAccum : List Char → Nat → Option Nat
  | [], acc => some acc
  | c :: cs, acc =>
    match decDigitVal c with
    | some d => decAccum cs (10 * acc + d)
    | none => none

/-- Nonempty run of decimal digits. -/
def parseDecNat (cs : List Char) : Option Nat :=
  match cs with
  | [] => none
  | _ => decAccum cs 0

/-- Python `int(x)` as used by the fetchers: a decimal string (optionally
negative) or a JSON integer; anything else raises and is caught. -/
def pyIntOf : Json → Option Int
  | Json.str s =>
    match s.toList with
    | '-' :: rest => (parseDecNat rest).map (fun n => -(n : Int))
    | cs => (parseDecNat cs).map (fun n => (n : Int))
  | Json.num n => some n
  | _ => none

/-- Python `float(x)` on a canonical decimal string such as `"123.4567"`
(or a bare integer string), returned as a numerator/denominator pair
`(a, 10 ^ fracDigits)` with value `a / 10 ^ fracDigits`. -/
def parseDecimalParts (s : String) : Option (Nat × Nat) :=
  let cs := s.toList
  let intPart := cs.takeWhile (fun c => c ≠ '.')
  let rest := cs.dropWhile (fun c => c ≠ '.')
  match rest with
  | [] => (parseDecNat intPart).map (fun n => (n, 1))
  | _ :: frac =>
    if intPart.isEmpty ∧ frac.isEmpty then none
    else
      match decAccum intPart 0, decAccum frac 0 with
      | some a, some b => some (a * 10 ^ frac.length + b, 10 ^ frac.length)
      | _, _ => none

/-- Left-pad a fractional part to four digits. -/
def pad4 (m : Nat) : String :=
  if m < 10 then "000" ++ toString m
  else if m < 100 then "00" ++ toString m
  else if m < 1000 then "0" ++ toString m
  else toString m

/-- `count / 10^k` followed by `f"{x:.4f}"`: the exact four-decimal
fixed-point rendering of the rational `n / d`, rounding half to even on the
magnitude (round-half-even is symmetric under negation, so this matches
rounding the signed value). -/
def fmt4 (n : Int) (d : Nat) : String :=
  let a : Nat := n.natAbs * 10000
  let q : Nat := a / d
  let r : Nat := a % d
  let m : Nat :=
    if 2 * r < d then q
    else if d < 2 * r then q + 1
    else if q % 2 = 0 then q else q + 1
  let sign : String := if n < 0 then "-" else ""
  sign ++ toString (m / 10000) ++ "." ++ pad4 (m % 10000)

/-- Python `int(t)` truncation toward zero on a (timestamp) rational,
computed from the reduced numerator and denominator. -/
def pyTrunc (q : ℚ) : Int :=
  if 0 ≤ q.num then (q.num.toNat / q.den : Nat) else -((q.num.natAbs / q.den : Nat))

/-! ### Secret store (`get_secret`, lines 27-68) -/

/-- The module-level `_secrets_cache` dict. -/
def SecretsCache : Type := List (String × Json)

/-- `cache_key = f"{name}:{key}" if key else secret_name` (an empty-string or
absent sub-key is falsy and collapses to the bare name). -/
def cacheKeyOf (name : String) (key : Option String) : String :=
  match key with
  | some k => if k = "" then name else name ++ ":" ++ k
  | none => name

/-- Outcome of one `get_secret` call: the returned value, the updated
`_secrets_cache`, and whether Secrets Manager was actually consulted. -/
structure GetSecretResult where
  value : Option Json
  cache : SecretsCache
  consultedStore : Bool

/-- The value `get_secret` computes on a cache miss (lines 43-63, `try`
body), in the fragment where the store does not fail at the transport
level: `store` models `boto3 client.get_secret_value` with `.error` = an
AWS service error response (`ClientError`, caught at line 58) and `.ok` =
the `SecretString`; `jparse` models `json.loads` (`.error` =
`JSONDecodeError`, caught at line 61). Both caught exceptions and a
missing sub-key collapse to `none` (returned as `None`); with a truthy
sub-key the parsed JSON is indexed by it, otherwise the raw secret string
is the value. Transport-level store failures, which no handler catches,
are modelled by `get_secret_full`. -/
def freshSecretValue (store : String → Except Unit String)
    (jparse : String → Except Unit Json) (name : String) (key : Option String) :
    Option Json :=
  match store name with
  | Except.error _ => none
  | Except.ok secretString =>
    match key with
    | some k =>
      if k = "" then some (Json.str secretString)
      else
        match jparse secretString with
        | Except.error _ => none
        | Except.ok data => Json.getField data k
    | none => some (Json.str secretString)

/-- `get_secret` (lines 33-63): serve a cache hit without touching the
store; on a miss consult the store, cache the value only when it is truthy
(`if value:`), and return it. -/
def get_secret (cache : SecretsCache) (store : String → Except Unit String)
    (jparse : String → Except Unit Json) (name : String) (key : Option String) :
    GetSecretResult :=
  let ck := cacheKeyOf name key
  match assocLookup cache ck with
  | some v => ⟨some v, cache, false⟩
  | none =>
    match freshSecretValue store jparse name key with
    | some v =>
      if v.truthy then ⟨some v, (ck, v) :: cache, true⟩ else ⟨some v, cache, true⟩
    | none => ⟨none, cache, true⟩

/-- `MAINNET_SECRET_NAME` (line 30). -/
def MAINNET_SECRET_NAME : String := "facilitator-rpc-mainnet"

/-- The network short keys looked up in Secrets Manager (lines 120-121). -/
def privateKeys : List String :=
  ["base", "avalanche", "polygon", "optimism", "celo",
   "hyperevm", "ethereum", "arbitrum", "unichain", "solana", "near"]

/-- The `private_rpcs` loading loop of `get_network_configs` (lines 119-127),
threading the process-wide `_secrets_cache`. In line with the source cache
annotation `dict[str, str]`, only truthy string values become RPC URLs. -/
def loadPrivateRpcs (store : String → Except Unit String)
    (jparse : String → Except Unit Json) :
    List String → SecretsCache → List (String × String) × SecretsCache
  | [], cache => ([], cache)
  | k :: ks, cache =>
    let r := get_secret cache store jparse MAINNET_SECRET_NAME (some k)
    let rest := loadPrivateRpcs store jparse ks r.cache
    match r.value with
    | some (Json.str s) => if s = "" then rest else ((k, s) :: rest.1, rest.2)
    | _ => rest

/-- Outcome of one boto3 `get_secret_value` call, distinguishing the two
failure families the source treats differently: `clientError` is an AWS
service error response (`botocore.exceptions.ClientError`, the only boto3
exception `get_secret` catches, line 58); `transportError` is a
transport-level failure of an unreachable store (`EndpointConnectionError`,
`ConnectTimeoutError`, `NoCredentialsError` and the other `BotoCoreError`s),
which no handler in `get_secret` catches. -/
inductive StoreReply where
  | ok : String → StoreReply
  | clientError : StoreReply
  | transportError : StoreReply
deriving DecidableEq

/-- `get_secret` under the full exception model: the call either returns
normally (`.ok`) or lets an uncaught exception propagate to the caller
(`.error`). A cache hit never consults the store; on a miss, a
`transportError` escapes uncaught, a `clientError` (as well as a
`JSONDecodeError` from `jparse` and a missing sub-key) is caught and
yields `None`, and a truthy value is cached before being returned. -/
def get_secret_full (cache : SecretsCache) (store2 : String → StoreReply)
    (jparse : String → Except Unit Json) (name : String) (key : Option String) :
    Except Unit GetSecretResult :=
  let ck := cacheKeyOf name key
  match assocLookup cache ck with
  | some v => Except.ok ⟨some v, cache, false⟩
  | none =>
    match store2 name with
    | StoreReply.transportError => Except.error ()
    | StoreReply.clientError => Except.ok ⟨none, cache, true⟩
    | StoreReply.ok secretString =>
      let value : Option Json :=
        match key with
        | some k =>
          if k = "" then some (Json.str secretString)
          else
            match jparse secretString with
            | Except.error _ => none
            | Except.ok data => Json.getField data k
        | none => some (Json.str secretString)
      match value with
      | some v =>
        if v.truthy then Except.ok ⟨some v, (ck, v) :: cache, true⟩
        else Except.ok ⟨some v, cache, true⟩
      | none => Except.ok ⟨none, cache, true⟩

/-- View of a transport-failure-free store as the simple
`Except`-valued store consumed by `get_secret`. -/
def storeOfReply (store2 : String → StoreReply) : String → Except Unit String :=
  fun n =>
    match store2 n with
    | StoreReply.ok s => Except.ok s
    | _ => Except.error ()

/-! ### Network registry (`get_network_configs`, lines 71-356) -/

/-- Wallet addresses (lines 72-93). -/
def MAINNET_ADDRESS : String := "0x103040545AC5031A11E8C03dd11324C7333a13C7"

def TESTNET_ADDRESS : String := "0x34033041a5944B8F10f8E4D8496Bfb84f1A293A8"

def SOLANA_MAINNET_ADDRESS : String := "F742C4VfFLQ9zRQyithoj5229ZgtX2WqKCSFKgH2EThq"

def SOLANA_TESTNET_ADDRESS : String := "6xNPewUdKRbEZDReQdpyfNUdgNg8QRc8Mt263T5GZSRv"

def SUI_MAINNET_ADDRESS : String :=
  "0xe7bbf2b13f7d72714760aa16e024fa1b35a978793f9893d0568a4fbf356a764a"

def SUI_TESTNET_ADDRESS : String :=
  "0xabbd16a2fab2a502c9cfe835195a6fc7d70bfc27cffb40b8b286b52a97006e67"

def NEAR_MAINNET_ADDRESS : String := "uvd-facilitator.near"

def NEAR_TESTNET_ADDRESS : String := "uvd-facilitator.testnet"

def STELLAR_MAINNET_ADDRESS : String :=
  "GCHPGXJT2WFFRFCA5TV4G4E3PMMXLNIDUH27PKDYA4QJ2XGYZWGFZNHB"

def STELLAR_TESTNET_ADDRESS : String :=
  "GBBFZMLUJEZVI32EN4XA2KPP445XIBTMTRBLYWFIL556RDTHS2OWFQ2Z"

def ALGORAND_MAINNET_ADDRESS : String :=
  "KIMS5H6QLCUDL65L5UBTOXDPWLMTS7N3AAC3I6B2NCONEI5QIVK7LH2C2I"

def ALGORAND_TESTNET_ADDRESS : String :=
  "5DPPDQNYUPCTXRZWRYSF3WPYU6RKAUR25F3YG4EKXQRHV5AUAI62H5GXL4"

/-- `PUBLIC_RPCS` (lines 97-109). -/
def PUBLIC_RPCS : List (String × String) :=
  [("base", "https://mainnet.base.org"),
   ("avalanche", "https://avalanche-c-chain-rpc.publicnode.com"),
   ("polygon", "https://polygon.drpc.org"),
   ("optimism", "https://mainnet.optimism.io"),
   ("celo", "https://rpc.celocolombia.org"),
   ("hyperevm", "https://rpc.hyperliquid.xyz/evm"),
   ("ethereum", "https://ethereum-rpc.publicnode.com"),
   ("arbitrum", "https://arb1.arbitrum.io/rpc"),
   ("unichain", "https://unichain-rpc.publicnode.com"),
   ("solana", "https://api.mainnet-beta.solana.com"),
   ("near", "https://free.rpc.fastnear.com")]

/-- The `"type"` field of a network config. -/
inductive ProtocolKind where
  | evm : ProtocolKind
  | solana : ProtocolKind
  | sui : ProtocolKind
  | near : ProtocolKind
  | stellar : ProtocolKind
  | algorand : ProtocolKind
deriving DecidableEq

/-- One entry of the `get_network_configs` dict: the key (`id`), the
`"type"`, the `"rpcs"` list (with `None` entries for unconfigured tiers),
the `"api"` URL for REST-style chains, and the `"address"`. -/
structure NetConfig where
  id : String
  kind : ProtocolKind
  rpcs : List (Option String)
  api : Option String
  address : String

/-- The dict literal returned by `get_network_configs` (lines 129-356), as a
key-ordered list. `priv` is `private_rpcs.get` (the loaded secret tier) and
`env` is `os.environ.get`. -/
def get_network_configs (priv : String → Option String) (env : String → Option String) :
    List NetConfig :=
  [⟨"avalanche-mainnet", ProtocolKind.evm,
    [priv "avalanche", env "RPC_URL_AVALANCHE",
     some "https://avalanche-c-chain-rpc.publicnode.com"], none, MAINNET_ADDRESS⟩,
   ⟨"base-mainnet", ProtocolKind.evm,
    [priv "base", env "RPC_URL_BASE", some "https://mainnet.base.org"],
    none, MAINNET_ADDRESS⟩,
   ⟨"celo-mainnet", ProtocolKind.evm,
    [priv "celo", env "RPC_URL_CELO", some "https://rpc.celocolombia.org"],
    none, MAINNET_ADDRESS⟩,
   ⟨"hyperevm-mainnet", ProtocolKind.evm,
    [priv "hyperevm", env "RPC_URL_HYPEREVM", some "https://rpc.hyperliquid.xyz/evm"],
    none, MAINNET_ADDRESS⟩,
   ⟨"polygon-mainnet", ProtocolKind.evm,
    [priv "polygon", env "RPC_URL_POLYGON", some "https://polygon.drpc.org"],
    none, MAINNET_ADDRESS⟩,
   ⟨"optimism-mainnet", ProtocolKind.evm,
    [priv "optimism", env "RPC_URL_OPTIMISM", some "https://mainnet.optimism.io"],
    none, MAINNET_ADDRESS⟩,
   ⟨"ethereum-mainnet", ProtocolKind.evm,
    [priv "ethereum", env "RPC_URL_ETHEREUM", some "https://ethereum-rpc.publicnode.com"],
    none, MAINNET_ADDRESS⟩,
   ⟨"arbitrum-mainnet", ProtocolKind.evm,
    [priv "arbitrum", env "RPC_URL_ARBITRUM", some "https://arb1.arbitrum.io/rpc"],
    none, MAINNET_ADDRESS⟩,
   ⟨"unichain-mainnet", ProtocolKind.evm,
    [priv "unichain", env "RPC_URL_UNICHAIN", some "https://unichain-rpc.publicnode.com"],
    none, MAINNET_ADDRESS⟩,
   ⟨"monad-mainnet", ProtocolKind.evm,
    [env "RPC_URL_MONAD", some "https://rpc.monad.xyz"], none, MAINNET_ADDRESS⟩,
   ⟨"bsc-mainnet", ProtocolKind.evm,
    [env "RPC_URL_BSC", some "https://bsc-dataseed.binance.org/"], none, MAINNET_ADDRESS⟩,
   ⟨"avalanche-testnet", ProtocolKind.evm,
    [some "https://avalanche-fuji-c-chain-rpc.publicnode.com"], none, TESTNET_ADDRESS⟩,
   ⟨"base-testnet", ProtocolKind.evm,
    [some "https://sepolia.base.org"], none, TESTNET_ADDRESS⟩,
   ⟨"celo-testnet", ProtocolKind.evm,
    [some "https://rpc.ankr.com/celo_sepolia"], none, TESTNET_ADDRESS⟩,
   ⟨"polygon-testnet", ProtocolKind.evm,
    [some "https://rpc-amoy.polygon.technology"], none, TESTNET_ADDRESS⟩,
   ⟨"optimism-testnet", ProtocolKind.evm,
    [some "https://sepolia.optimism.io"], none, TESTNET_ADDRESS⟩,
   ⟨"ethereum-testnet", ProtocolKind.evm,
    [some "https://ethereum-sepolia-rpc.publicnode.com"], none, TESTNET_ADDRESS⟩,
   ⟨"arbitrum-testnet", ProtocolKind.evm,
    [some "https://arbitrum-sepolia-rpc.publicnode.com"], none, TESTNET_ADDRESS⟩,
   ⟨"unichain-testnet", ProtocolKind.evm,
    [some "https://unichain-sepolia.drpc.org"], none, TESTNET_ADDRESS⟩,
   ⟨"hyperevm-testnet", ProtocolKind.evm,
    [some "https://rpc.hyperliquid-testnet.xyz/evm"], none, TESTNET_ADDRESS⟩,
   ⟨"solana-mainnet", ProtocolKind.solana,
    [priv "solana", env "RPC_URL_SOLANA", some "https://api.mainnet-beta.solana.com"],
    none, SOLANA_MAINNET_ADDRESS⟩,
   ⟨"solana-devnet", ProtocolKind.solana,
    [some "https://api.devnet.solana.com"], none, SOLANA_TESTNET_ADDRESS⟩,
   ⟨"fogo-mainnet", ProtocolKind.solana,
    [some "https://rpc.fogo.nightly.app/"], none, SOLANA_MAINNET_ADDRESS⟩,
   ⟨"fogo-testnet", ProtocolKind.solana,
    [some "https://testnet.fogo.io/"], none, SOLANA_TESTNET_ADDRESS⟩,
   ⟨"sui-mainnet", ProtocolKind.sui,
    [env "RPC_URL_SUI", some "https://fullnode.mainnet.sui.io:443"],
    none, SUI_MAINNET_ADDRESS⟩,
   ⟨"sui-testnet", ProtocolKind.sui,
    [some "https://fullnode.testnet.sui.io:443"], none, SUI_TESTNET_ADDRESS⟩,
   ⟨"near-mainnet", ProtocolKind.near,
    [priv "near", some "https://free.rpc.fastnear.com", some "https://near.lava.build",
     some "https://near.drpc.org"], none, NEAR_MAINNET_ADDRESS⟩,
   ⟨"near-testnet", ProtocolKind.near,
    [some "https://test.rpc.fastnear.com", some "https://rpc.testnet.fastnear.com",
     some "https://near-testnet.drpc.org"], none, NEAR_TESTNET_ADDRESS⟩,
   ⟨"stellar-mainnet", ProtocolKind.stellar, [],
    some ("https://horizon.stellar.org/accounts/" ++ STELLAR_MAINNET_ADDRESS),
    STELLAR_MAINNET_ADDRESS⟩,
   ⟨"stellar-testnet", ProtocolKind.stellar, [],
    some ("https://horizon-testnet.stellar.org/accounts/" ++ STELLAR_TESTNET_ADDRESS),
    STELLAR_TESTNET_ADDRESS⟩,
   ⟨"algorand-mainnet", ProtocolKind.algorand, [],
    some ("https://mainnet-api.algonode.cloud/v2/accounts/" ++ ALGORAND_MAINNET_ADDRESS),
    ALGORAND_MAINNET_ADDRESS⟩,
   ⟨"algorand-testnet", ProtocolKind.algorand, [],
    some ("https://testnet-api.algonode.cloud/v2/accounts/" ++ ALGORAND_TESTNET_ADDRESS),
    ALGORAND_TESTNET_ADDRESS⟩]

/-- The full `get_network_configs` pipeline: load the private-RPC tier
through the secret cache, then build the registry. -/
def buildConfigs (store : String → Except Unit String)
    (jparse : String → Except Unit Json) (cache : SecretsCache)
    (env : String → Option String) : List NetConfig × SecretsCache :=
  let r := loadPrivateRpcs store jparse privateKeys cache
  (get_network_configs (fun k => assocLookup r.1 k) env, r.2)

/-- The `private_rpcs` loading loop under the full exception model: an
uncaught exception from any `get_secret` call aborts the loop (and with it
`get_network_configs`) immediately; later keys are not processed. -/
def loadPrivateRpcsFull (store2 : String → StoreReply)
    (jparse : String → Except Unit Json) :
    List String → SecretsCache → Except Unit (List (String × String) × SecretsCache)
  | [], cache => Except.ok ([], cache)
  | k :: ks, cache =>
    match get_secret_full cache store2 jparse MAINNET_SECRET_NAME (some k) with
    | Except.error e => Except.error e
    | Except.ok r =>
      match loadPrivateRpcsFull store2 jparse ks r.cache with
      | Except.error e => Except.error e
      | Except.ok rest =>
        match r.value with
        | some (Json.str s) =>
          if s = "" then Except.ok rest else Except.ok ((k, s) :: rest.1, rest.2)
        | _ => Except.ok rest

/-- The full `get_network_configs` pipeline under the full exception model:
an uncaught secret-store exception propagates to the caller of credential
resolution instead of producing a registry. -/
def buildConfigsFull (store2 : String → StoreReply)
    (jparse : String → Except Unit Json) (cache : SecretsCache)
    (env : String → Option String) : Except Unit (List NetConfig × SecretsCache) :=
  match loadPrivateRpcsFull store2 jparse privateKeys cache with
  | Except.error e => Except.error e
  | Except.ok r => Except.ok (get_network_configs (fun k => assocLookup r.1 k) env, r.2)

/-- Lookup of one network's config by its id. -/
def findNetwork (priv : String → Option String) (env : String → Option String)
    (id : String) : Option NetConfig :=
  (get_network_configs priv env).find? (fun c => c.id = id)

/-- The fixed set of network ids (the keys of the registry dict). -/
def networkIds : List String :=
  ["avalanche-mainnet", "base-mainnet", "celo-mainnet", "hyperevm-mainnet",
   "polygon-mainnet", "optimism-mainnet", "ethereum-mainnet", "arbitrum-mainnet",
   "unichain-mainnet", "monad-mainnet", "bsc-mainnet",
   "avalanche-testnet", "base-testnet", "celo-testnet", "polygon-testnet",
   "optimism-testnet", "ethereum-testnet", "arbitrum-testnet", "unichain-testnet",
   "hyperevm-testnet",
   "solana-mainnet", "solana-devnet", "fogo-mainnet", "fogo-testnet",
   "sui-mainnet", "sui-testnet", "near-mainnet", "near-testnet",
   "stellar-mainnet", "stellar-testnet", "algorand-mainnet", "algorand-testnet"]

example : ∀ (priv env : String → Option String),
    (get_network_configs priv env).map (fun c => c.id) = networkIds :=
  fun _ _ => rfl

/-! ### Protocol clients (lines 359-499)

`fetch_json` is modelled by an oracle `String → Option Json`: `none` stands
for any exception it can raise (connection error, timeout, non-2xx status,
non-JSON body); `some d` is the decoded response. -/

/-- EVM response handling (lines 381-384): if `"result"` is a hex string,
`int(result, 16) / 1e18` formatted to 4 decimals; a missing `result` field,
a non-string value, or a malformed hex string yields no balance (in the
source the latter raise and are caught by the per-endpoint handler). -/
def parseEvmData (data : Json) : Option String :=
  match Json.getField data "result" with
  | some (Json.str s) => (parseHexNat s).map (fun wei => fmt4 (wei : Int) (10 ^ 18))
  | _ => none

/-- Solana response handling (lines 406-409): `result.value / 1e9` to 4
decimals when `result.value` is an integer. -/
def parseSolanaData (data : Json) : Option String :=
  match Json.getField data "result" with
  | some r =>
    match Json.getField r "value" with
    | some (Json.num n) => some (fmt4 n (10 ^ 9))
    | _ => none
  | none => none

/-- Whether a Sui balance entry matches `b.get("coinType") == "0x2::sui::SUI"`. -/
def coinTypeIsSui (j : Json) : Bool :=
  match j with
  | Json.obj kvs =>
    match assocLookup kvs "coinType" with
    | some (Json.str s) => s = "0x2::sui::SUI"
    | _ => false
  | _ => false

/-- The generator
`next((b for b in result if b.get("coinType") == "0x2::sui::SUI"), None)`
(lines 432-435): scan for the first matching entry; a non-dict entry reached
before a match raises `AttributeError` (`.error`), which the per-endpoint
handler catches. -/
def findSui : List Json → Except Unit (Option Json)
  | [] => Except.ok none
  | Json.obj kvs :: rest =>
    if coinTypeIsSui (Json.obj kvs) then Except.ok (some (Json.obj kvs))
    else findSui rest
  | _ :: _ => Except.error ()

/-- Sui response handling (lines 431-439): when `result` is a list, select
the first entry whose `coinType` is `"0x2::sui::SUI"` and return
`int(totalBalance) / 1e9` to 4 decimals; no match (or a falsy match) falls
through with no balance. -/
def parseSuiData (data : Json) : Option String :=
  match Json.getField data "result" with
  | some (Json.arr l) =>
    match findSui l with
    | Except.error _ => none
    | Except.ok none => none
    | Except.ok (some b) =>
      if b.truthy then
        match Json.getField b "totalBalance" with
        | some tb => (pyIntOf tb).map (fun mist => fmt4 mist (10 ^ 9))
        | none => none
      else none
  | _ => none

/-- NEAR response handling (lines 465-468): `int(result.amount) / 1e24` to
4 decimals. -/
def parseNearData (data : Json) : Option String :=
  match Json.getField data "result" with
  | some r =>
    match Json.getField r "amount" with
    | some a => (pyIntOf a).map (fun yocto => fmt4 yocto (10 ^ 24))
    | none => none
  | none => none

/-- The generator
`next((b for b in balances if b.get("asset_type") == "native"), None)`
(lines 478-481). -/
def findNative : List Json → Except Unit (Option Json)
  | [] => Except.ok none
  | Json.obj kvs :: rest =>
    (match assocLookup kvs "asset_type" with
     | some (Json.str s) =>
       if s = "native" then Except.ok (some (Json.obj kvs))
       else findNative rest
     | _ => findNative rest)
  | _ :: _ => Except.error ()

/-- Stellar response handling (lines 477-484): select the `native` entry of
`balances` and reformat `float(balance)` to 4 decimals. -/
def parseStellarData (data : Json) : Option String :=
  match Json.getField data "balances" with
  | some (Json.arr l) =>
    (match findNative l with
     | Except.error _ => none
     | Except.ok none => none
     | Except.ok (some b) =>
       if b.truthy then
         match Json.getField b "balance" with
         | some (Json.str s) => (parseDecimalParts s).map (fun p => fmt4 (p.1 : Int) p.2)
         | some (Json.num n) => some (fmt4 n 1)
         | _ => none
       else none)
  | _ => none

/-- Algorand response handling (lines 494-496): `amount / 1e6` to 4
decimals when `amount` is an integer. -/
def parseAlgorandData (data : Json) : Option String :=
  match Json.getField data "amount" with
  | some (Json.num n) => some (fmt4 n (10 ^ 6))
  | _ => none

/-- One endpoint attempt: perform the HTTP call (`oracle`) and parse; any
failure collapses to `none`, which advances the fallback walk. -/
def attemptWith (parse : Json → Option String) (oracle : String → Option Json)
    (url : String) : Option String :=
  match oracle url with
  | none => none
  | some data => parse data

/-- The endpoint fallback walk shared by the four RPC-style fetchers: try
endpoints in order, return the first successful parse, `none` when the list
is exhausted. -/
def rpcWalk (att : String → Option String) : List String → Option String
  | [] => none
  | u :: us =>
    match att u with
    | some v => some v
    | none => rpcWalk att us

/-- `fetch_evm_balance` (lines 367-389): filter out `None` endpoints, walk
the rest, return `(network, balance-or-None)`. -/
def fetch_evm_balance (oracle : String → Option Json) (network : String)
    (config : NetConfig) : String × Option String :=
  (network, rpcWalk (attemptWith parseEvmData oracle) (config.rpcs.filterMap id))

/-- `fetch_solana_balance` (lines 392-414). -/
def fetch_solana_balance (oracle : String → Option Json) (network : String)
    (config : NetConfig) : String × Option String :=
  (network, rpcWalk (attemptWith parseSolanaData oracle) (config.rpcs.filterMap id))

/-- `fetch_sui_balance` (lines 417-444). -/
def fetch_sui_balance (oracle : String → Option Json) (network : String)
    (config : NetConfig) : String × Option String :=
  (network, rpcWalk (attemptWith parseSuiData oracle) (config.rpcs.filterMap id))

/-- `fetch_near_balance` (lines 447-471). -/
def fetch_near_balance (oracle : String → Option Json) (network : String)
    (config : NetConfig) : String × Option String :=
  (network, rpcWalk (attemptWith parseNearData oracle) (config.rpcs.filterMap id))

/-- `fetch_stellar_balance` (lines 474-487): single REST endpoint, no walk;
a missing `api` key raises inside the `try` and is caught. -/
def fetch_stellar_balance (oracle : String → Option Json) (network : String)
    (config : NetConfig) : String × Option String :=
  (network,
    match config.api with
    | none => none
    | some u => attemptWith parseStellarData oracle u)

/-- `fetch_algorand_balance` (lines 490-499). -/
def fetch_algorand_balance (oracle : String → Option Json) (network : String)
    (config : NetConfig) : String × Option String :=
  (network,
    match config.api with
    | none => none
    | some u => attemptWith parseAlgorandData oracle u)

/-- The parse function the dispatch associates with each protocol kind. -/
def parseFor : ProtocolKind → Json → Option String
  | ProtocolKind.evm => parseEvmData
  | ProtocolKind.solana => parseSolanaData
  | ProtocolKind.sui => parseSuiData
  | ProtocolKind.near => parseNearData
  | ProtocolKind.stellar => parseStellarData
  | ProtocolKind.algorand => parseAlgorandData

/-- The executor dispatch of `fetch_all_balances` (lines 518-532): submit
the kind-specific fetcher for one network. -/
def fetchBalance (oracle : String → Option Json) (c : NetConfig) :
    String × Option String :=
  match c.kind with
  | ProtocolKind.evm => fetch_evm_balance oracle c.id c
  | ProtocolKind.solana => fetch_solana_balance oracle c.id c
  | ProtocolKind.sui => fetch_sui_balance oracle c.id c
  | ProtocolKind.near => fetch_near_balance oracle c.id c
  | ProtocolKind.stellar => fetch_stellar_balance oracle c.id c
  | ProtocolKind.algorand => fetch_algorand_balance oracle c.id c

/-- Collection of the completed futures (lines 534-536): the balances dict
assembled in completion order, which `as_completed` makes an arbitrary
permutation of the submitted networks. -/
def aggregationResults (oracle : String → Option Json) (order : List NetConfig) :
    List (String × Option String) :=
  order.map (fetchBalance oracle)

/-! ### Result cache and handler (lines 21-24, 502-577) -/

/-- `CACHE_TTL_SECONDS` (line 24). -/
def CACHE_TTL_SECONDS : Nat := 60

/-- The module-level cache slot: `_cache` and `_cache_timestamp`. -/
structure AggState where
  cache : List (String × Option String)
  cacheTimestamp : ℚ

/-- `fetch_all_balances` (lines 502-542) with the globals passed explicitly:
on a fresh cache (`_cache` truthy and younger than the TTL) return it
unchanged; otherwise run an aggregation (`run` abstracts the concurrent
fan-out result at time `now`), store it, and return it. The `Bool` records
whether an aggregation ran. -/
def fetch_all_balances (st : AggState) (now : ℚ)
    (run : List (String × Option String)) :
    List (String × Option String) × AggState × Bool :=
  if st.cache ≠ [] ∧ now - st.cacheTimestamp < (CACHE_TTL_SECONDS : ℚ) then
    (st.cache, st, false)
  else
    (run, ⟨run, now⟩, true)

/-- Body of a handler response: the fixed success envelope
`{balances, cached_at, ttl_seconds}` or the fixed error envelope
`{"error": message}`. -/
inductive HttpBody where
  | success : List (String × Option String) → Int → Nat → HttpBody
  | failure : String → HttpBody

/-- An API Gateway response (status code and JSON body). -/
structure HttpResponse where
  statusCode : Nat
  body : HttpBody

/-- `lambda_handler` (lines 545-577): `pipeline` is the outcome of the
`fetch_all_balances()` call (`.error` = any exception escaping the
pipeline, carrying `str(e)`). On success the handler serializes the
balances with `int(_cache_timestamp)` and the TTL; on failure it returns
the 500 error envelope. The handler itself is total: it never raises. -/
def lambda_handler
    (pipeline : Except String (List (String × Option String) × AggState)) :
    HttpResponse :=
  match pipeline with
  | Except.ok (balances, st) =>
    ⟨200, HttpBody.success balances (pyTrunc st.cacheTimestamp) CACHE_TTL_SECONDS⟩
  | Except.error e => ⟨500, HttpBody.failure e⟩

/-! ### Concrete fixtures used by witnesses and counterexamples -/

/-- An HTTP layer on which every request fails. -/
def oracleNone : String → Option Json := fun _ => none

/-- An empty secret tier. -/
def privNone : String → Option String := fun _ => none

/-- An empty OS environment. -/
def envNone : String → Option String := fun _ => none

/-- A secret store that always raises `ClientError`. -/
def storeFail : String → Except Unit String := fun _ => Except.error ()

/-- An unreachable secret store: every call raises a transport-level
`BotoCoreError` (e.g. `EndpointConnectionError`). -/
def storeUnreachable : String → StoreReply := fun _ => StoreReply.transportError

/-- A secret store whose every call raises `ClientError` (an AWS service
error response), in the full exception model. -/
def storeClientErr : String → StoreReply := fun _ => StoreReply.clientError

/-- A `json.loads` that always raises `JSONDecodeError`. -/
def jparseFail : String → Except Unit Json := fun _ => Except.error ()

/-- A secret store whose every secret is the JSON text `"{}"`. -/
def storeEmptyObj : String → Except Unit String := fun _ => Except.ok "{}"

/-- A `json.loads` that parses exactly the text `"{}"`. -/
def jparseEmptyObj : String → Except Unit Json :=
  fun s => if s = "{}" then Except.ok (Json.obj []) else Except.error ()

/-- An environment carrying only a NEAR RPC override. -/
def envNear : String → Option String :=
  fun n => if n = "RPC_URL_NEAR" then some "https://near-override.example.org" else none

/-- An HTTP layer where one endpoint answers an EVM balance of 1 ETH and
every other request fails. -/
def oracleEvmOne : String → Option Json :=
  fun u =>
    if u = "https://b.example.org" then
      some (Json.obj [("result", Json.str "0xde0b6b3a7640000")])
    else none

/-- A two-endpoint EVM config whose first endpoint is unreachable under
`oracleEvmOne`. -/
def cfgEvmTwo : NetConfig :=
  ⟨"base-mainnet", ProtocolKind.evm,
   [some "https://a.example.org", some "https://b.example.org"], none, MAINNET_ADDRESS⟩

/-- A NEAR config with three endpoints. -/
def cfgNearThree : NetConfig :=
  ⟨"near-mainnet", ProtocolKind.near,
   [some "https://free.rpc.fastnear.com", some "https://near.lava.build",
    some "https://near.drpc.org"], none, NEAR_MAINNET_ADDRESS⟩

/-- Endpoint and response fixture for the Sui zero-balance witness. -/
def suiZeroEntry : Json :=
  Json.obj [("coinType", Json.str "0x2::sui::SUI"), ("totalBalance", Json.str "0")]

/-- A Sui balance entry of 2.5 SUI. -/
def suiEntry25 : Json :=
  Json.obj [("coinType", Json.str "0x2::sui::SUI"), ("totalBalance", Json.str "2500000000")]

/-- A Sui balance list carrying only a non-SUI coin type. -/
def suiOtherList : List Json :=
  [Json.obj [("coinType", Json.str "0x2::usdc::USDC"), ("totalBalance", Json.str "77")]]

/-- An HTTP layer answering the Sui testnet endpoint with a balances list
that has no `0x2::sui::SUI` entry. -/
def oracleSuiOther : String → Option Json :=
  fun u =>
    if u = "https://fullnode.testnet.sui.io:443" then
      some (Json.obj [("result", Json.arr suiOtherList)])
    else none

/-- The registry's `sui-testnet` entry. -/
def cfgSuiTestnet : NetConfig :=
  ⟨"sui-testnet", ProtocolKind.sui,
   [some "https://fullnode.testnet.sui.io:443"], none, SUI_TESTNET_ADDRESS⟩

/-- The short key of a mainnet network id (`"base-mainnet"` → `"base"`):
drop the 8-character `"-mainnet"` suffix. -/
def mainnetShortKey (nid : String) : String :=
  String.mk (nid.toList.take (nid.toList.length - 8))

/-- ASCII uppercase of one character. -/
def asciiUpperChar (c : Char) : Char :=
  if 'a' ≤ c ∧ c ≤ 'z' then Char.ofNat (c.toNat - 32) else c

/-- ASCII uppercase of a string (`"base"` → `"BASE"`). -/
def asciiUpper (s : String) : String := String.mk (s.toList.map asciiUpperChar)

/-- The candidate endpoint list the claimed three-tier scheme prescribes for
a mainnet descriptor: the privileged secret endpoint for the network's short
key, then the `RPC_URL_<NETWORK>` environment override, then the hardcoded
public endpoint of the registry's `PUBLIC_RPCS` table, absent tiers filtered
out. (Stated from the claim's words, to be compared with the source
registry.) -/
def specTierList (priv env : String → Option String) (nid : String) : List String :=
  List.filterMap id
    [priv (mainnetShortKey nid),
     env ("RPC_URL_" ++ asciiUpper (mainnetShortKey nid)),
     assocLookup PUBLIC_RPCS (mainnetShortKey nid)]

/-- One network that does follow the three credential tiers: its id, secret
short key, environment variable, hardcoded public endpoint, and protocol. -/
structure TierSpec where
  netId : String
  key : String
  envVar : String
  pubUrl : String
  kind : ProtocolKind
deriving DecidableEq

/-- The ten registry entries built as
`[private_rpcs.get(k), os.environ.get("RPC_URL_..."), PUBLIC_RPCS[k]]`. -/
def tieredNets : List TierSpec :=
  [⟨"avalanche-mainnet", "avalanche", "RPC_URL_AVALANCHE",
    "https://avalanche-c-chain-rpc.publicnode.com", ProtocolKind.evm⟩,
   ⟨"base-mainnet", "base", "RPC_URL_BASE", "https://mainnet.base.org", ProtocolKind.evm⟩,
   ⟨"celo-mainnet", "celo", "RPC_URL_CELO", "https://rpc.celocolombia.org", ProtocolKind.evm⟩,
   ⟨"hyperevm-mainnet", "hyperevm", "RPC_URL_HYPEREVM", "https://rpc.hyperliquid.xyz/evm",
    ProtocolKind.evm⟩,
   ⟨"polygon-mainnet", "polygon", "RPC_URL_POLYGON", "https://polygon.drpc.org",
    ProtocolKind.evm⟩,
   ⟨"optimism-mainnet", "optimism", "RPC_URL_OPTIMISM", "https://mainnet.optimism.io",
    ProtocolKind.evm⟩,
   ⟨"ethereum-mainnet", "ethereum", "RPC_URL_ETHEREUM",
    "https://ethereum-rpc.publicnode.com", ProtocolKind.evm⟩,
   ⟨"arbitrum-mainnet", "arbitrum", "RPC_URL_ARBITRUM", "https://arb1.arbitrum.io/rpc",
    ProtocolKind.evm⟩,
   ⟨"unichain-mainnet", "unichain", "RPC_URL_UNICHAIN",
    "https://unichain-rpc.publicnode.com", ProtocolKind.evm⟩,
   ⟨"solana-mainnet", "solana", "RPC_URL_SOLANA", "https://api.mainnet-beta.solana.com",
    ProtocolKind.solana⟩]

/-- A secret tier carrying only a privileged Base endpoint. -/
def privBase : String → Option String :=
  fun k => if k = "base" then some "https://priv.example.org" else none

/-- A secret store holding a privileged Base RPC URL. -/
def storeBase : String → Except Unit String :=
  fun _ => Except.ok "base-secret-json"

/-- A `json.loads` for `storeBase`'s secret text. -/
def jparseBase : String → Except Unit Json :=
  fun s =>
    if s = "base-secret-json" then
      Except.ok (Json.obj [("base", Json.str "https://priv.example.org")])
    else Except.error ()

/-! ### Helper lemmas -/

theorem rpcWalk_all_none (att : String → Option String) :
    ∀ l : List String, (∀ u, u ∈ l → att u = none) → rpcWalk att l = none := by
  intro l
  induction l with
  | nil => intro _; rfl
  | cons u us ih =>
    intro h
    have hu : att u = none := h u (List.mem_cons_self u us)
    simp only [rpcWalk, hu]
    exact ih (fun w hw => h w (List.mem_cons_of_mem u hw))

theorem rpcWalk_first_success (att : String → Option String) :
    ∀ (l1 : List String) (u : String) (l2 : List String) (v : String),
      (∀ w, w ∈ l1 → att w = none) → att u = some v →
      rpcWalk att (l1 ++ u :: l2) = some v := by
  intro l1
  induction l1 with
  | nil =>
    intro u l2 v _ hu
    simp only [List.nil_append, rpcWalk, hu]
  | cons w ws ih =>
    intro u l2 v h hu
    have hw : att w = none := h w (List.mem_cons_self w ws)
    simp only [List.cons_append, rpcWalk, hw]
    exact ih u l2 v (fun x hx => h x (List.mem_cons_of_mem w hx)) hu

/-- **C1**: for every network configuration and HTTP behaviour, the EVM and
NEAR fetchers walk the resolved (`None`-filtered) endpoint list in order:
if every attempt fails they return `(network, none)` without raising; the
first endpoint whose response parses determines the result and no later
endpoint matters; a network error (`oracle = none`) or a JSON-RPC error
payload (no `result` field) makes an attempt fail, advancing the walk. -/
theorem C1_endpoint_fallback (oracle : String → Option Json) (network : String)
    (config : NetConfig) :
    ((∀ u, u ∈ config.rpcs.filterMap id → attemptWith parseEvmData oracle u = none) →
      fetch_evm_balance oracle network config = (network, none)) ∧
    (∀ (l1 : List String) (u : String) (l2 : List String) (v : String),
      config.rpcs.filterMap id = l1 ++ u :: l2 →
      (∀ w, w ∈ l1 → attemptWith parseEvmData oracle w = none) →
      attemptWith parseEvmData oracle u = some v →
      fetch_evm_balance oracle network config = (network, some v)) ∧
    (∀ u, oracle u = none → attemptWith parseEvmData oracle u = none) ∧
    (∀ u d, oracle u = some d → Json.getField d "result" = none →
      attemptWith parseEvmData oracle u = none) ∧
    ((∀ u, u ∈ config.rpcs.filterMap id → attemptWith parseNearData oracle u = none) →
      fetch_near_balance oracle network config = (network, none)) ∧
    (∀ (l1 : List String) (u : String) (l2 : List String) (v : String),
      config.rpcs.filterMap id = l1 ++ u :: l2 →
      (∀ w, w ∈ l1 → attemptWith parseNearData oracle w = none) →
      attemptWith parseNearData oracle u = some v →
      fetch_near_balance oracle network config = (network, some v)) := by
  refine ⟨?_, ?_, ?_, ?_, ?_, ?_⟩
  · intro h
    unfold fetch_evm_balance
    rw [rpcWalk_all_none _ _ h]
  · intro l1 u l2 v hsplit h1 hu
    unfold fetch_evm_balance
    rw [hsplit, rpcWalk_first_success _ _ _ _ _ h1 hu]
  · intro u h
    unfold attemptWith
    rw [h]
  · intro u d hu hd
    simp only [attemptWith, parseEvmData, hu, hd]
  · intro h
    unfold fetch_near_balance
    rw [rpcWalk_all_none _ _ h]
  · intro l1 u l2 v hsplit h1 hu
    unfold fetch_near_balance
    rw [hsplit, rpcWalk_first_success _ _ _ _ _ h1 hu]

/-- Witness for C1: with every endpoint failing, the NEAR fetcher over its
three mainnet endpoints yields `(near-mainnet, none)`; with the first EVM
endpoint unreachable and the second answering 1 ETH, the EVM fetcher returns
the second endpoint's balance. -/
theorem C1_endpoint_fallback_witness :
    fetch_near_balance oracleNone "near-mainnet" cfgNearThree = ("near-mainnet", none) ∧
    fetch_evm_balance oracleEvmOne "base-mainnet" cfgEvmTwo = ("base-mainnet", some "1.0000") := by
  constructor
  · exact (C1_endpoint_fallback oracleNone "near-mainnet" cfgNearThree).2.2.2.2.1
      (fun u _ => rfl)
  · exact (C1_endpoint_fallback oracleEvmOne "base-mainnet" cfgEvmTwo).2.1
      ["https://a.example.org"] "https://b.example.org" [] "1.0000" rfl
      (fun w hw => by
        have : w = "https://a.example.org" := by simpa using hw
        subst this
        rfl)
      (by decide)

/-- A found Sui entry really has `coinType == "0x2::sui::SUI"`. -/
theorem findSui_sound : ∀ (L : List Json) (b : Json),
    findSui L = Except.ok (some b) → coinTypeIsSui b = true := by
  intro L
  induction L with
  | nil =>
    intro b h
    simp [findSui] at h
  | cons e rest ih =>
    intro b h
    cases e with
    | obj kvs =>
      by_cases hc : coinTypeIsSui (Json.obj kvs) = true
      · rw [findSui, if_pos hc] at h
        cases h
        exact hc
      · rw [findSui, if_neg hc] at h
        exact ih b h
    | null => simp [findSui] at h
    | bool b2 => simp [findSui] at h
    | num n => simp [findSui] at h
    | str s => simp [findSui] at h
    | arr l => simp [findSui] at h

/-- An entry with a `coinType` field is a nonempty dict, hence truthy. -/
theorem truthy_of_coinTypeIsSui (b : Json) (h : coinTypeIsSui b = true) :
    b.truthy = true := by
  cases b with
  | obj kvs =>
    cases kvs with
    | nil => simp [coinTypeIsSui, assocLookup] at h
    | cons p r => simp [Json.truthy]
  | null => simp [coinTypeIsSui] at h
  | bool b2 => simp [coinTypeIsSui] at h
  | num n => simp [coinTypeIsSui] at h
  | str s => simp [coinTypeIsSui] at h
  | arr l => simp [coinTypeIsSui] at h

/-- `parseSuiData` on a list result with a found entry returns its scaled
`totalBalance`. -/
theorem parseSuiData_found (L : List Json) (b tb : Json) (n : Int)
    (hf : findSui L = Except.ok (some b))
    (htb : Json.getField b "totalBalance" = some tb)
    (hn : pyIntOf tb = some n) :
    parseSuiData (Json.obj [("result", Json.arr L)]) = some (fmt4 n (10 ^ 9)) := by
  have htr : b.truthy = true := truthy_of_coinTypeIsSui b (findSui_sound L b hf)
  have h1 : Json.getField (Json.obj [("result", Json.arr L)]) "result" =
      some (Json.arr L) := rfl
  unfold parseSuiData
  rw [h1]
  simp only [hf, htr, htb, hn]
  simp

/-- `parseSuiData` on a list result with no matching entry yields nothing. -/
theorem parseSuiData_no_match (L : List Json) (hf : findSui L = Except.ok none) :
    parseSuiData (Json.obj [("result", Json.arr L)]) = none := by
  have h1 : Json.getField (Json.obj [("result", Json.arr L)]) "result" =
      some (Json.arr L) := rfl
  unfold parseSuiData
  rw [h1]
  simp only [hf]

/-- **C5**: the protocol parsers on the literal scenarios: EVM
`"0xde0b6b3a7640000"` → `"1.0000"`; Solana `{"value": 2500000000}` →
`"2.5000"`; NEAR `{"amount": "1000000000000000000000000"}` → `"1.0000"`;
Algorand `{"amount": 5000000}` → `"5.0000"`. -/
theorem C5_protocol_scaling :
    parseEvmData (Json.obj [("result", Json.str "0xde0b6b3a7640000")]) = some "1.0000" ∧
    parseSolanaData (Json.obj [("result", Json.obj [("value", Json.num 2500000000)])]) =
      some "2.5000" ∧
    parseNearData
      (Json.obj [("result", Json.obj [("amount", Json.str "1000000000000000000000000")])]) =
      some "1.0000" ∧
    parseAlgorandData (Json.obj [("amount", Json.num 5000000)]) = some "5.0000" := by
  refine ⟨?_, ?_, ?_, ?_⟩ <;> decide

/-- **C8**: the Sui client selects from a list result exactly the first
entry whose `coinType` is `"0x2::sui::SUI"` and returns its `totalBalance`
scaled by `10^9` to four decimals; when no endpoint's result list contains a
matching entry, the network's balance is `none` (unavailable), not zero. -/
theorem C8_sui_selection :
    (∀ (L : List Json) (b : Json), findSui L = Except.ok (some b) →
      coinTypeIsSui b = true) ∧
    (∀ (L : List Json) (b tb : Json) (n : Int),
      findSui L = Except.ok (some b) →
      Json.getField b "totalBalance" = some tb → pyIntOf tb = some n →
      parseSuiData (Json.obj [("result", Json.arr L)]) = some (fmt4 n (10 ^ 9))) ∧
    (∀ (oracle : String → Option Json) (network : String) (config : NetConfig),
      (∀ u, u ∈ config.rpcs.filterMap id →
        ∃ L, oracle u = some (Json.obj [("result", Json.arr L)]) ∧
          findSui L = Except.ok none) →
      fetch_sui_balance oracle network config = (network, none)) := by
  refine ⟨findSui_sound, ?_, ?_⟩
  · intro L b tb n hf htb hn
    exact parseSuiData_found L b tb n hf htb hn
  · intro oracle network config h
    unfold fetch_sui_balance
    rw [rpcWalk_all_none]
    intro u hu
    obtain ⟨L, ho, hfl⟩ := h u hu
    unfold attemptWith
    rw [ho]
    exact parseSuiData_no_match L hfl

/-- Witness for C8: a singleton list holding 2.5 SUI parses to `"2.5000"`,
and the walk over the Sui testnet endpoint whose response has no
`0x2::sui::SUI` entry ends with `(sui-testnet, none)`. -/
theorem C8_sui_selection_witness :
    parseSuiData (Json.obj [("result", Json.arr [suiEntry25])]) = some "2.5000" ∧
    fetch_sui_balance oracleSuiOther "sui-testnet" cfgSuiTestnet = ("sui-testnet", none) := by
  constructor
  · rw [C8_sui_selection.2.1 [suiEntry25] suiEntry25 (Json.str "2500000000") 2500000000
      rfl rfl rfl]
    decide
  · refine C8_sui_selection.2.2 oracleSuiOther "sui-testnet" cfgSuiTestnet ?_
    intro u hu
    have hu2 : u = "https://fullnode.testnet.sui.io:443" := by
      simpa [cfgSuiTestnet] using hu
    subst hu2
    exact ⟨suiOtherList, rfl, rfl⟩

/-- **C10**: a result list whose matching `0x2::sui::SUI` entry holds
`totalBalance` 0 parses to the present value `"0.0000"`, while a result
list with no matching entry parses to `none` — a genuine zero balance and
"no matching coin type" stay distinguishable. -/
theorem C10_sui_zero_distinguishable (L L2 : List Json) (b tb : Json)
    (hf : findSui L = Except.ok (some b))
    (htb : Json.getField b "totalBalance" = some tb)
    (hn : pyIntOf tb = some 0)
    (hf2 : findSui L2 = Except.ok none) :
    parseSuiData (Json.obj [("result", Json.arr L)]) = some "0.0000" ∧
    parseSuiData (Json.obj [("result", Json.arr L2)]) = none := by
  constructor
  · rw [parseSuiData_found L b tb 0 hf htb hn]
    decide
  · exact parseSuiData_no_match L2 hf2

/-- Witness for C10 at a concrete zero-balance entry and a concrete
non-matching list. -/
theorem C10_sui_zero_distinguishable_witness :
    parseSuiData (Json.obj [("result", Json.arr [suiZeroEntry])]) = some "0.0000" ∧
    parseSuiData (Json.obj [("result", Json.arr suiOtherList)]) = none :=
  C10_sui_zero_distinguishable [suiZeroEntry] suiOtherList suiZeroEntry (Json.str "0")
    rfl rfl rfl rfl

/-- Each fetcher tags its result with the submitted network id. -/
theorem fetchBalance_fst (oracle : String → Option Json) (c : NetConfig) :
    (fetchBalance oracle c).1 = c.id := by
  cases hk : c.kind <;> simp [fetchBalance, hk, fetch_evm_balance, fetch_solana_balance,
    fetch_sui_balance, fetch_near_balance, fetch_stellar_balance, fetch_algorand_balance]

/-- Lookup in an association list with distinct keys finds a member pair. -/
theorem assocLookup_eq_of_mem {β : Type} :
    ∀ (l : List (String × β)) (k : String) (v : β),
      (k, v) ∈ l → (l.map Prod.fst).Nodup → assocLookup l k = some v := by
  intro l
  induction l with
  | nil => intro k v hm _; simp at hm
  | cons p rest ih =>
    intro k v hm hn
    obtain ⟨k2, v2⟩ := p
    rcases List.mem_cons.mp hm with heq | hmem
    · obtain ⟨hk, hv⟩ := Prod.mk.injEq .. ▸ heq
      simp only [assocLookup]
      rw [if_pos hk.symm]
      cases heq
      rfl
    · rw [List.map_cons] at hn
      have hkeys := List.nodup_cons.mp hn
      have hk2 : k2 ≠ k := by
        intro hcontra
        exact hkeys.1 (hcontra ▸ (List.mem_map.mpr ⟨(k, v), hmem, rfl⟩))
      simp only [assocLookup]
      rw [if_neg hk2]
      exact ih k v hmem hkeys.2

/-- The registry's key list is the fixed network id list, for every
credential and environment configuration. -/
theorem configs_ids (priv env : String → Option String) :
    (get_network_configs priv env).map (fun c => c.id) = networkIds := rfl

/-- **C2**: a cache-miss aggregation run collected in any completion order
produces a result mapping whose key multiset is exactly the fixed network id
set, and every registry network (including each one whose fetch failed,
recorded as `none`) is looked up to exactly its own fetch outcome. -/
theorem C2_snapshot_completeness (priv env : String → Option String)
    (oracle : String → Option Json) (order : List NetConfig)
    (hperm : order.Perm (get_network_configs priv env)) :
    ((aggregationResults oracle order).map Prod.fst).Perm networkIds ∧
    (∀ c, c ∈ get_network_configs priv env →
      assocLookup (aggregationResults oracle order) c.id =
        some ((fetchBalance oracle c).2)) := by
  have hmapfst : (aggregationResults oracle order).map Prod.fst =
      order.map (fun c => c.id) := by
    unfold aggregationResults
    rw [List.map_map]
    exact List.map_congr_left (fun c _ => fetchBalance_fst oracle c)
  have hkeys : ((aggregationResults oracle order).map Prod.fst).Perm networkIds := by
    rw [hmapfst, ← configs_ids priv env]
    exact hperm.map (fun c => c.id)
  refine ⟨hkeys, ?_⟩
  intro c hc
  have hnodupIds : networkIds.Nodup := by decide
  have hnodup : ((aggregationResults oracle order).map Prod.fst).Nodup :=
    (hkeys.nodup_iff).mpr hnodupIds
  have hcmem : c ∈ order := (hperm.mem_iff).mpr hc
  have hpair : (c.id, (fetchBalance oracle c).2) ∈ aggregationResults oracle order := by
    have : fetchBalance oracle c ∈ aggregationResults oracle order :=
      List.mem_map.mpr ⟨c, hcmem, rfl⟩
    have hfst := fetchBalance_fst oracle c
    have : ((fetchBalance oracle c).1, (fetchBalance oracle c).2) ∈
        aggregationResults oracle order := by simpa using this
    rwa [hfst] at this
  exact assocLookup_eq_of_mem _ c.id ((fetchBalance oracle c).2) hpair hnodup

/-- Witness for C2: with no credentials, an empty environment, every
endpoint failing and the registry's own ordering, the snapshot keys are the
full network id set and each network looks up to its (failed) outcome. -/
theorem C2_snapshot_completeness_witness :
    ((aggregationResults oracleNone (get_network_configs privNone envNone)).map
      Prod.fst).Perm networkIds ∧
    (∀ c, c ∈ get_network_configs privNone envNone →
      assocLookup (aggregationResults oracleNone (get_network_configs privNone envNone))
        c.id = some ((fetchBalance oracleNone c).2)) :=
  C2_snapshot_completeness privNone envNone oracleNone
    (get_network_configs privNone envNone) (List.Perm.refl _)

/-- **C3**: once a snapshot exists (`_cache` nonempty, produced at
`cacheTimestamp`), a call strictly inside the 60-second TTL returns the
identical snapshot and state with no aggregation run; a call at or past the
TTL runs a fresh aggregation, stores it with the new timestamp `now`
(necessarily different from the old one), and returns it. -/
theorem C3_cache_freshness (st : AggState) (now : ℚ)
    (run : List (String × Option String)) (h : st.cache ≠ []) :
    (now - st.cacheTimestamp < (CACHE_TTL_SECONDS : ℚ) →
      fetch_all_balances st now run = (st.cache, st, false)) ∧
    ((CACHE_TTL_SECONDS : ℚ) ≤ now - st.cacheTimestamp →
      fetch_all_balances st now run = (run, ⟨run, now⟩, true) ∧
      now ≠ st.cacheTimestamp) := by
  constructor
  · intro hlt
    unfold fetch_all_balances
    rw [if_pos ⟨h, hlt⟩]
  · intro hge
    constructor
    · unfold fetch_all_balances
      rw [if_neg]
      intro hcontra
      exact absurd hcontra.2 (not_lt.mpr hge)
    · intro hcontra
      rw [hcontra] at hge
      simp only [sub_self] at hge
      have : (0 : ℚ) < (CACHE_TTL_SECONDS : ℚ) := by norm_num [CACHE_TTL_SECONDS]
      exact absurd (le_trans hge (le_refl 0)) (not_le.mpr this)

/-- Witness for C3: with a one-entry snapshot produced at time 0, a call at
`now = 30` returns it unchanged with no aggregation, and a call at
`now = 120` replaces it with the fresh run stamped 120. -/
theorem C3_cache_freshness_witness :
    fetch_all_balances ⟨[("base-mainnet", none)], 0⟩ 30
      [("base-mainnet", some "1.0000")] =
      ([("base-mainnet", none)], ⟨[("base-mainnet", none)], 0⟩, false) ∧
    fetch_all_balances ⟨[("base-mainnet", none)], 0⟩ 120
      [("base-mainnet", some "1.0000")] =
      ([("base-mainnet", some "1.0000")],
        ⟨[("base-mainnet", some "1.0000")], 120⟩, true) := by
  constructor
  · exact (C3_cache_freshness ⟨[("base-mainnet", none)], 0⟩ 30
      [("base-mainnet", some "1.0000")] (by simp)).1 (by norm_num [CACHE_TTL_SECONDS])
  · exact ((C3_cache_freshness ⟨[("base-mainnet", none)], 0⟩ 120
      [("base-mainnet", some "1.0000")] (by simp)).2
      (by norm_num [CACHE_TTL_SECONDS])).1

/-- **C7**: the request handler is a total function whose only outcomes are
the fixed 200 envelope `{balances, cached_at, ttl_seconds}` (the pipeline's
snapshot, the truncated cache timestamp, the 60-second TTL) on pipeline
success and the fixed 500 envelope `{"error": message}` when any exception
escapes the pipeline; no other shape is visible to the caller. -/
theorem C7_handler_envelope :
    (∀ (balances : List (String × Option String)) (st : AggState),
      lambda_handler (Except.ok (balances, st)) =
        ⟨200, HttpBody.success balances (pyTrunc st.cacheTimestamp) CACHE_TTL_SECONDS⟩) ∧
    (∀ msg, lambda_handler (Except.error msg) = ⟨500, HttpBody.failure msg⟩) ∧
    (∀ pipeline,
      (∃ b t, lambda_handler pipeline = ⟨200, HttpBody.success b t CACHE_TTL_SECONDS⟩) ∨
      (∃ m, lambda_handler pipeline = ⟨500, HttpBody.failure m⟩)) := by
  refine ⟨fun balances st => rfl, fun msg => rfl, ?_⟩
  intro pipeline
  cases pipeline with
  | ok p =>
    obtain ⟨b, st⟩ := p
    exact Or.inl ⟨b, pyTrunc st.cacheTimestamp, rfl⟩
  | error e => exact Or.inr ⟨e, rfl⟩

/-- For the four RPC-style protocol kinds the dispatch is the endpoint walk
with the kind's parser. -/
theorem fetchBalance_rpc (oracle : String → Option Json) (c : NetConfig)
    (h1 : c.kind ≠ ProtocolKind.stellar) (h2 : c.kind ≠ ProtocolKind.algorand) :
    fetchBalance oracle c =
      (c.id, rpcWalk (attemptWith (parseFor c.kind) oracle) (c.rpcs.filterMap id)) := by
  cases hk : c.kind <;>
    simp_all [fetchBalance, parseFor, fetch_evm_balance, fetch_solana_balance,
      fetch_sui_balance, fetch_near_balance]

/-- Counterexample to C4 as stated: `near-mainnet` is a mainnet descriptor,
yet with an `RPC_URL_NEAR` override set (and no secret) its resolved
endpoint list is the three hardcoded public endpoints — not the
secret/env/public tier list, which would start with the override. -/
theorem C4_tier_order_counterexample :
    (findNetwork privNone envNear "near-mainnet").map (fun c => c.rpcs.filterMap id) =
      some ["https://free.rpc.fastnear.com", "https://near.lava.build",
        "https://near.drpc.org"] ∧
    specTierList privNone envNear "near-mainnet" =
      ["https://near-override.example.org", "https://free.rpc.fastnear.com"] ∧
    (findNetwork privNone envNear "near-mainnet").map (fun c => c.rpcs.filterMap id) ≠
      some (specTierList privNone envNear "near-mainnet") := by
  refine ⟨?_, ?_, ?_⟩ <;> decide

/-- **C4 (amended)**: for each of the ten networks built with the
secret/env/public tier scheme (the nine privileged EVM mainnets and
`solana-mainnet`), the registry's candidate list is exactly
`[secret tier, env override, public endpoint]`, its resolution equals the
tier list with absent tiers filtered out, and a configured secret endpoint
whose attempt succeeds determines the returned balance over all later
tiers. -/
theorem C4_tier_order_amended (priv env : String → Option String) :
    ∀ t, t ∈ tieredNets →
      ∃ c, findNetwork priv env t.netId = some c ∧
        c.rpcs = [priv t.key, env t.envVar, some t.pubUrl] ∧
        c.kind = t.kind ∧
        c.rpcs.filterMap id = specTierList priv env t.netId ∧
        (∀ (oracle : String → Option Json) (u v : String),
          priv t.key = some u →
          attemptWith (parseFor t.kind) oracle u = some v →
          fetchBalance oracle c = (t.netId, some v)) := by
  intro t ht
  fin_cases ht <;>
  · refine ⟨_, rfl, rfl, rfl, rfl, ?_⟩
    intro oracle u v hp hat
    simp only [parseFor] at hat
    simp [fetchBalance, fetch_evm_balance, fetch_solana_balance, rpcWalk, hp, hat,
      List.filterMap_cons]

/-- Witness for the amended C4 at `base-mainnet` with a configured secret
endpoint. -/
theorem C4_tier_order_amended_witness :
    ∃ c, findNetwork privBase envNone "base-mainnet" = some c ∧
      c.rpcs = [privBase "base", envNone "RPC_URL_BASE", some "https://mainnet.base.org"] ∧
      c.kind = ProtocolKind.evm ∧
      c.rpcs.filterMap id = specTierList privBase envNone "base-mainnet" ∧
      (∀ (oracle : String → Option Json) (u v : String),
        privBase "base" = some u →
        attemptWith (parseFor ProtocolKind.evm) oracle u = some v →
        fetchBalance oracle c = ("base-mainnet", some v)) :=
  C4_tier_order_amended privBase envNone
    ⟨"base-mainnet", "base", "RPC_URL_BASE", "https://mainnet.base.org",
      ProtocolKind.evm⟩ (by decide)

/-- `get_secret` touches no cache entry other than its own cache key. -/
theorem get_secret_preserves (cache : SecretsCache) (store : String → Except Unit String)
    (jparse : String → Except Unit Json) (name : String) (key : Option String)
    (q : String) (hq : q ≠ cacheKeyOf name key) :
    assocLookup (get_secret cache store jparse name key).cache q = assocLookup cache q := by
  simp only [get_secret]
  cases h1 : assocLookup cache (cacheKeyOf name key) with
  | some v => rfl
  | none =>
    cases h2 : freshSecretValue store jparse name key with
    | none => rfl
    | some v =>
      simp only []
      by_cases ht : v.truthy = true
      · rw [if_pos ht]
        simp only [assocLookup]
        rw [if_neg (fun hc => hq hc.symm)]
      · rw [if_neg ht]

/-- Re-running `get_secret` from any cache state that agrees with the
first run's final cache at the cache key returns the same value and leaves
the new cache untouched. -/
theorem get_secret_stable (cache cache2 : SecretsCache)
    (store : String → Except Unit String) (jparse : String → Except Unit Json)
    (name : String) (key : Option String)
    (h : assocLookup cache2 (cacheKeyOf name key) =
      assocLookup (get_secret cache store jparse name key).cache (cacheKeyOf name key)) :
    (get_secret cache2 store jparse name key).value =
      (get_secret cache store jparse name key).value ∧
    (get_secret cache2 store jparse name key).cache = cache2 := by
  cases h1 : assocLookup cache (cacheKeyOf name key) with
  | some v =>
    have hr : get_secret cache store jparse name key = ⟨some v, cache, false⟩ := by
      simp only [get_secret, h1]
    rw [hr] at h
    simp only [] at h
    rw [h1] at h
    have hr2 : get_secret cache2 store jparse name key = ⟨some v, cache2, false⟩ := by
      simp only [get_secret, h]
    rw [hr, hr2]
    exact ⟨rfl, rfl⟩
  | none =>
    cases h2 : freshSecretValue store jparse name key with
    | none =>
      have hr : get_secret cache store jparse name key = ⟨none, cache, true⟩ := by
        simp only [get_secret, h1, h2]
      rw [hr] at h
      simp only [] at h
      rw [h1] at h
      have hr2 : get_secret cache2 store jparse name key = ⟨none, cache2, true⟩ := by
        simp only [get_secret, h, h2]
      rw [hr, hr2]
      exact ⟨rfl, rfl⟩
    | some v =>
      by_cases ht : v.truthy = true
      · have hr : get_secret cache store jparse name key =
            ⟨some v, (cacheKeyOf name key, v) :: cache, true⟩ := by
          simp only [get_secret, h1, h2, if_pos ht]
        rw [hr] at h
        simp only [assocLookup, eq_self_iff_true, if_true] at h
        have hr2 : get_secret cache2 store jparse name key = ⟨some v, cache2, false⟩ := by
          simp only [get_secret, h]
        rw [hr, hr2]
        exact ⟨rfl, rfl⟩
      · have hr : get_secret cache store jparse name key = ⟨some v, cache, true⟩ := by
          simp only [get_secret, h1, h2, if_neg ht]
        rw [hr] at h
        simp only [] at h
        rw [h1] at h
        have hr2 : get_secret cache2 store jparse name key = ⟨some v, cache2, true⟩ := by
          simp only [get_secret, h, h2, if_neg ht]
        rw [hr, hr2]
        exact ⟨rfl, rfl⟩

/-- A truthy value returned by `get_secret` is present in its final cache
under the call's cache key. -/
theorem get_secret_cached_of_truthy (cache : SecretsCache)
    (store : String → Except Unit String) (jparse : String → Except Unit Json)
    (name : String) (key : Option String) (v : Json)
    (hv : (get_secret cache store jparse name key).value = some v)
    (ht : v.truthy = true) :
    assocLookup (get_secret cache store jparse name key).cache (cacheKeyOf name key) =
      some v := by
  cases h1 : assocLookup cache (cacheKeyOf name key) with
  | some w =>
    have hr : get_secret cache store jparse name key = ⟨some w, cache, false⟩ := by
      simp only [get_secret, h1]
    rw [hr] at hv ⊢
    simp only [Option.some.injEq] at hv
    simp only []
    rw [h1, hv]
  | none =>
    cases h2 : freshSecretValue store jparse name key with
    | none =>
      have hr : get_secret cache store jparse name key = ⟨none, cache, true⟩ := by
        simp only [get_secret, h1, h2]
      rw [hr] at hv
      simp at hv
    | some w =>
      by_cases htw : w.truthy = true
      · have hr : get_secret cache store jparse name key =
            ⟨some w, (cacheKeyOf name key, w) :: cache, true⟩ := by
          simp only [get_secret, h1, h2, if_pos htw]
        rw [hr] at hv ⊢
        simp only [Option.some.injEq] at hv
        simp only [assocLookup, eq_self_iff_true, if_true]
        rw [hv]
      · have hr : get_secret cache store jparse name key = ⟨some w, cache, true⟩ := by
          simp only [get_secret, h1, h2, if_neg htw]
        rw [hr] at hv
        simp only [Option.some.injEq] at hv
        exact absurd (hv ▸ ht) htw

/-- Appending after the head of an association list under a distinct key
leaves lookups unchanged. -/
theorem filterMap_none_env (e : Option String) (p : String) :
    List.filterMap id [none, e, some p] = e.toList ++ [p] := by
  cases e <;> rfl

/-- The private-RPC loading loop touches no cache entry outside the cache
keys of its own short keys. -/
theorem loadPrivateRpcs_preserves (store : String → Except Unit String)
    (jparse : String → Except Unit Json) :
    ∀ (ks : List String) (cache : SecretsCache) (q : String),
      (∀ k, k ∈ ks → q ≠ cacheKeyOf MAINNET_SECRET_NAME (some k)) →
      assocLookup (loadPrivateRpcs store jparse ks cache).2 q = assocLookup cache q := by
  intro ks
  induction ks with
  | nil => intro cache q _; rfl
  | cons k ks ih =>
    intro cache q h
    have hq : q ≠ cacheKeyOf MAINNET_SECRET_NAME (some k) :=
      h k (List.mem_cons_self k ks)
    have hrest : ∀ k2, k2 ∈ ks → q ≠ cacheKeyOf MAINNET_SECRET_NAME (some k2) :=
      fun k2 hk2 => h k2 (List.mem_cons_of_mem k hk2)
    have hstep :
        assocLookup (loadPrivateRpcs store jparse ks
          (get_secret cache store jparse MAINNET_SECRET_NAME (some k)).cache).2 q =
          assocLookup cache q := by
      rw [ih _ q hrest]
      exact get_secret_preserves cache store jparse MAINNET_SECRET_NAME (some k) q hq
    simp only [loadPrivateRpcs]
    cases hv : (get_secret cache store jparse MAINNET_SECRET_NAME (some k)).value with
    | none => exact hstep
    | some v =>
      cases v with
      | str s =>
        simp only []
        by_cases hs : s = ""
        · rw [if_pos hs]
          exact hstep
        · rw [if_neg hs]
          exact hstep
      | null => exact hstep
      | bool b => exact hstep
      | num n => exact hstep
      | arr l => exact hstep
      | obj kvs => exact hstep

/-- Once the private-RPC loop has run, running it again from its final
cache is a no-op: it returns the same tier map and the same cache. -/
theorem loadPrivateRpcs_idem (store : String → Except Unit String)
    (jparse : String → Except Unit Json) :
    ∀ (ks : List String) (cache : SecretsCache),
      (ks.map (fun k => cacheKeyOf MAINNET_SECRET_NAME (some k))).Nodup →
      loadPrivateRpcs store jparse ks ((loadPrivateRpcs store jparse ks cache).2) =
        loadPrivateRpcs store jparse ks cache := by
  intro ks
  induction ks with
  | nil => intro cache _; rfl
  | cons k ks ih =>
    intro cache hnd
    rw [List.map_cons, List.nodup_cons] at hnd
    obtain ⟨hnotin, hnd2⟩ := hnd
    have hne : ∀ k2, k2 ∈ ks →
        cacheKeyOf MAINNET_SECRET_NAME (some k) ≠
          cacheKeyOf MAINNET_SECRET_NAME (some k2) := by
      intro k2 hk2 hc
      exact hnotin (List.mem_map.mpr ⟨k2, hk2, hc.symm⟩)
    have key1 : (loadPrivateRpcs store jparse (k :: ks) cache).2 =
        (loadPrivateRpcs store jparse ks
          (get_secret cache store jparse MAINNET_SECRET_NAME (some k)).cache).2 := by
      simp only [loadPrivateRpcs]
      cases hv : (get_secret cache store jparse MAINNET_SECRET_NAME (some k)).value with
      | none => rfl
      | some v =>
        cases v with
        | str s =>
          simp only []
          by_cases hs : s = ""
          · rw [if_pos hs]
          · rw [if_neg hs]
        | null => rfl
        | bool b => rfl
        | num n => rfl
        | arr l => rfl
        | obj kvs => rfl
    have hlk : assocLookup (loadPrivateRpcs store jparse ks
        (get_secret cache store jparse MAINNET_SECRET_NAME (some k)).cache).2
        (cacheKeyOf MAINNET_SECRET_NAME (some k)) =
        assocLookup (get_secret cache store jparse MAINNET_SECRET_NAME (some k)).cache
          (cacheKeyOf MAINNET_SECRET_NAME (some k)) :=
      loadPrivateRpcs_preserves store jparse ks _ _ hne
    obtain ⟨hval, hcache⟩ := get_secret_stable cache
      (loadPrivateRpcs store jparse ks
        (get_secret cache store jparse MAINNET_SECRET_NAME (some k)).cache).2
      store jparse MAINNET_SECRET_NAME (some k) hlk
    rw [key1]
    simp only [loadPrivateRpcs]
    rw [hval, hcache, ih _ hnd2]

/-- Without a transport-level failure, the full exception model of
`get_secret` never raises and agrees with the simple caught-failure model:
a `clientError` behaves exactly like the simple store's `.error`. -/
theorem get_secret_full_no_transport (cache : SecretsCache)
    (store2 : String → StoreReply) (jparse : String → Except Unit Json)
    (name : String) (key : Option String)
    (h : store2 name ≠ StoreReply.transportError) :
    get_secret_full cache store2 jparse name key =
      Except.ok (get_secret cache (storeOfReply store2) jparse name key) := by
  cases h1 : assocLookup cache (cacheKeyOf name key) with
  | some v => simp only [get_secret_full, get_secret, h1]
  | none =>
    cases h2 : store2 name with
    | transportError => exact absurd h2 h
    | clientError =>
      have hs : storeOfReply store2 name = Except.error () := by
        simp only [storeOfReply, h2]
      simp only [get_secret_full, get_secret, freshSecretValue, h1, h2, hs]
    | ok s =>
      have hs : storeOfReply store2 name = Except.ok s := by
        simp only [storeOfReply, h2]
      cases key with
      | none =>
        simp only [get_secret_full, get_secret, freshSecretValue, h1, h2, hs]
        by_cases ht : (Json.str s).truthy = true
        · simp only [if_pos ht]
        · simp only [if_neg ht]
      | some k =>
        by_cases hk : k = ""
        · simp only [get_secret_full, get_secret, freshSecretValue, h1, h2, hs, if_pos hk]
          by_cases ht : (Json.str s).truthy = true
          · simp only [if_pos ht]
          · simp only [if_neg ht]
        · cases hj : jparse s with
          | error e =>
            simp only [get_secret_full, get_secret, freshSecretValue, h1, h2, hs,
              if_neg hk, hj]
          | ok data =>
            simp only [get_secret_full, get_secret, freshSecretValue, h1, h2, hs,
              if_neg hk, hj]
            cases hg : Json.getField data k with
            | none => rfl
            | some v =>
              by_cases ht : v.truthy = true
              · simp only [hg, if_pos ht]
              · simp only [hg, if_neg ht]

/-- Counterexample to C6 as stated: an unreachable secret store raises a
transport-level `BotoCoreError`, which the source's `except ClientError`
does not match — the exception escapes `get_secret` and aborts credential
resolution (`get_network_configs`) instead of degrading to lower tiers. -/
theorem C6_store_unreachable_counterexample :
    get_secret_full [] storeUnreachable jparseFail MAINNET_SECRET_NAME (some "base") =
      Except.error () ∧
    buildConfigsFull storeUnreachable jparseFail [] envNone = Except.error () :=
  ⟨rfl, rfl⟩

/-- **C6 (amended)**: only the failures `get_secret` actually catches never
raise. An AWS service error response from the store (`ClientError`) makes
`get_secret` return absence (`None`) with the cache untouched, and endpoint
resolution then degrades to the lower-priority tiers (environment override
when present, then the public endpoint) for every tiered network. By
contrast, a transport-level failure to reach the store is caught by no
handler and propagates to the caller of credential resolution. -/
theorem C6_store_failure_amended :
    (∀ (store2 : String → StoreReply) (jparse : String → Except Unit Json)
        (cache : SecretsCache) (name : String) (key : Option String),
      store2 name = StoreReply.clientError →
      assocLookup cache (cacheKeyOf name key) = none →
      get_secret_full cache store2 jparse name key = Except.ok ⟨none, cache, true⟩) ∧
    (∀ (store2 : String → StoreReply) (jparse : String → Except Unit Json)
        (env : String → Option String),
      (∀ n, store2 n = StoreReply.clientError) →
      ∃ cfgs, buildConfigsFull store2 jparse [] env = Except.ok (cfgs, []) ∧
        ∀ t, t ∈ tieredNets →
          ∃ c, cfgs.find? (fun c2 => c2.id = t.netId) = some c ∧
            c.rpcs.filterMap id = (env t.envVar).toList ++ [t.pubUrl]) ∧
    (∀ (store2 : String → StoreReply) (jparse : String → Except Unit Json)
        (cache : SecretsCache) (name : String) (key : Option String),
      store2 name = StoreReply.transportError →
      assocLookup cache (cacheKeyOf name key) = none →
      get_secret_full cache store2 jparse name key = Except.error ()) := by
  refine ⟨?_, ?_, ?_⟩
  · intro store2 jparse cache name key hs hl
    simp only [get_secret_full, hl, hs]
  · intro store2 jparse env hs
    have hget : ∀ k : String,
        get_secret_full [] store2 jparse MAINNET_SECRET_NAME (some k) =
          Except.ok ⟨none, [], true⟩ := by
      intro k
      simp only [get_secret_full, assocLookup, hs MAINNET_SECRET_NAME]
    have hload : ∀ ks : List String,
        loadPrivateRpcsFull store2 jparse ks [] = Except.ok ([], []) := by
      intro ks
      induction ks with
      | nil => rfl
      | cons k ks ih => simp only [loadPrivateRpcsFull, hget k, ih]
    refine ⟨get_network_configs (fun k => assocLookup ([] : List (String × String)) k) env,
      ?_, ?_⟩
    · simp only [buildConfigsFull, hload privateKeys]
    · intro t ht
      fin_cases ht <;> exact ⟨_, rfl, filterMap_none_env _ _⟩
  · intro store2 jparse cache name key hs hl
    simp only [get_secret_full, hl, hs]

/-- Witness for the amended C6: a `ClientError`-raising store yields `None`
with the registry degrading to env/public tiers (`base-mainnet` resolves to
its public endpoint alone under an empty environment), while an unreachable
store propagates its exception. -/
theorem C6_store_failure_amended_witness :
    get_secret_full [] storeClientErr jparseFail MAINNET_SECRET_NAME (some "base") =
      Except.ok ⟨none, [], true⟩ ∧
    (∃ cfgs, buildConfigsFull storeClientErr jparseFail [] envNone =
        Except.ok (cfgs, []) ∧
      ∀ t, t ∈ tieredNets →
        ∃ c, cfgs.find? (fun c2 => c2.id = t.netId) = some c ∧
          c.rpcs.filterMap id = (envNone t.envVar).toList ++ [t.pubUrl]) ∧
    get_secret_full [] storeUnreachable jparseFail MAINNET_SECRET_NAME (some "base") =
      Except.error () :=
  ⟨C6_store_failure_amended.1 storeClientErr jparseFail [] MAINNET_SECRET_NAME
      (some "base") rfl rfl,
    C6_store_failure_amended.2.1 storeClientErr jparseFail envNone (fun _ => rfl),
    C6_store_failure_amended.2.2 storeUnreachable jparseFail [] MAINNET_SECRET_NAME
      (some "base") rfl rfl⟩

/-- Counterexample to C9 as stated: with the shared secret resolving to an
empty JSON object, looking up the `base` sub-key yields "not present" — and
that absence is *not* cached, so an immediately repeated resolution of the
same (name, sub-key) pair consults the secret store a second time. -/
theorem C9_caching_counterexample :
    (get_secret [] storeEmptyObj jparseEmptyObj MAINNET_SECRET_NAME
      (some "base")).value = none ∧
    (get_secret [] storeEmptyObj jparseEmptyObj MAINNET_SECRET_NAME
      (some "base")).consultedStore = true ∧
    (get_secret
      (get_secret [] storeEmptyObj jparseEmptyObj MAINNET_SECRET_NAME
        (some "base")).cache
      storeEmptyObj jparseEmptyObj MAINNET_SECRET_NAME
      (some "base")).consultedStore = true :=
  ⟨rfl, rfl, rfl⟩

/-- **C9 (amended)**: only truthy (present) secret values are cached for
the process lifetime — a present value is served from the cache on the next
call with no store consultation, while "not present" is re-resolved against
the store; in all cases an immediately repeated resolution returns the same
value, and rebuilding the network registry from the loop's final cache
yields the identical registry (hence the same ordered endpoint lists) and
cache. -/
theorem C9_caching_amended (store : String → Except Unit String)
    (jparse : String → Except Unit Json) (cache : SecretsCache) (name : String)
    (key : Option String) (env : String → Option String) :
    ((get_secret (get_secret cache store jparse name key).cache
        store jparse name key).value =
      (get_secret cache store jparse name key).value) ∧
    (∀ v, (get_secret cache store jparse name key).value = some v →
      v.truthy = true →
      get_secret (get_secret cache store jparse name key).cache store jparse name key =
        ⟨some v, (get_secret cache store jparse name key).cache, false⟩) ∧
    (buildConfigs store jparse (buildConfigs store jparse cache env).2 env =
      buildConfigs store jparse cache env) := by
  refine ⟨?_, ?_, ?_⟩
  · exact (get_secret_stable cache (get_secret cache store jparse name key).cache
      store jparse name key rfl).1
  · intro v hv ht
    have hc := get_secret_cached_of_truthy cache store jparse name key v hv ht
    have hhit : ∀ (c2 : SecretsCache), assocLookup c2 (cacheKeyOf name key) = some v →
        get_secret c2 store jparse name key = ⟨some v, c2, false⟩ := by
      intro c2 h2
      simp only [get_secret, h2]
    exact hhit _ hc
  · have hidem := loadPrivateRpcs_idem store jparse privateKeys cache (by decide)
    simp only [buildConfigs]
    rw [hidem]

/-- Witness for the amended C9: a present Base secret URL is cached by the
first resolution and the second resolution serves it from the cache without
consulting the store. -/
theorem C9_caching_amended_witness :
    get_secret
      (get_secret [] storeBase jparseBase MAINNET_SECRET_NAME (some "base")).cache
      storeBase jparseBase MAINNET_SECRET_NAME (some "base") =
      ⟨some (Json.str "https://priv.example.org"),
        (get_secret [] storeBase jparseBase MAINNET_SECRET_NAME (some "base")).cache,
        false⟩ :=
  (C9_caching_amended storeBase jparseBase [] MAINNET_SECRET_NAME (some "base")
    envNone).2.1 (Json.str "https://priv.example.org") rfl rfl
